import Mathlib

/-!
Verification of the token aggregation / broadcast pipeline.

Shallow embedding conventions:
* JavaScript `number` values are modelled by `ℚ` (the code performs only
  field arithmetic and comparisons on them; `NaN`-producing corner cases are
  excluded by explicit hypotheses where they could arise).
* Optional record fields (`field?: number`) are modelled by `Option ℚ`;
  `none` stands for `undefined`.
* A JavaScript `Map` with string keys is modelled by an insertion-ordered
  association list `List (String × β)`; `Map.get` is `lookupAssoc`,
  `Map.set` is `setAssoc` (update in place, append when the key is new),
  matching the insertion-order semantics of `Map` iteration.
* Timestamps (`Date.now()`) are passed explicitly as parameters.
-/

namespace DexFlow

/-- The `Token` record from `src/types/index.ts`. -/
structure Token where
  token_address : String
  token_name : String
  token_ticker : String
  price_sol : ℚ
  market_cap_sol : ℚ
  volume_sol : ℚ
  liquidity_sol : ℚ
  transaction_count : ℚ
  price_1hr_change : Option ℚ
  price_24hr_change : Option ℚ
  price_7d_change : Option ℚ
  protocol : String
  dex_id : Option String
  pair_address : Option String
  price_usd : Option ℚ
  fdv : Option ℚ
  last_updated : Option ℚ
deriving DecidableEq, Repr

/-- JavaScript `x || d` for an optional number `x`: `undefined` and `0` are
falsy and yield the default `d`; any other number is returned unchanged. -/
def jsNumOr (x : Option ℚ) (d : ℚ) : ℚ :=
  match x with
  | none => d
  | some v => if v = 0 then d else v

/-- `AggregatorService.mergeTokenData` (aggregator service, lines 436-456).
Null arguments short-circuit; otherwise the token with positive `price_sol`
is preferred as `base` (`token1.price_sol > 0 ? token1 : token2`), volumes
are summed, liquidity / transaction count / last update are maxima
(`base.last_updated || 0` is `Option.getD 0`). -/
def mergeTokenData (token1 token2 : Option Token) : Option Token :=
  match token1, token2 with
  | none, none => none
  | none, some t2 => some t2
  | some t1, none => some t1
  | some t1, some t2 =>
    let base := if t1.price_sol > 0 then t1 else t2
    let supplement := if t1.price_sol > 0 then t2 else t1
    some { base with
      volume_sol := base.volume_sol + supplement.volume_sol
      liquidity_sol := max base.liquidity_sol supplement.liquidity_sol
      transaction_count := max base.transaction_count supplement.transaction_count
      last_updated := some (max (base.last_updated.getD 0) (supplement.last_updated.getD 0)) }

/-- JavaScript `String.prototype.toLowerCase()` restricted to the ASCII
range (token addresses are base58/alphanumeric): lower-case every
character. -/
def asciiLower (s : String) : String := ⟨s.data.map Char.toLower⟩

/-- Lookup in an insertion-ordered association list (JavaScript `Map.get`). -/
def lookupAssoc {β : Type} (key : String) : List (String × β) → Option β
  | [] => none
  | (k, v) :: rest => if k = key then some v else lookupAssoc key rest

/-- JavaScript `Map.set`: overwrite in place when the key exists, append
otherwise (preserving insertion order). -/
def setAssoc {β : Type} (key : String) (v : β) : List (String × β) → List (String × β)
  | [] => [(key, v)]
  | (k, e) :: rest => if k = key then (key, v) :: rest else (k, e) :: setAssoc key v rest

/-- One iteration of the loop in `AggregatorService.mergeAndDeduplicateTokens`
(lines 421-431): key the token by lowercased address, insert it when unseen,
otherwise merge it into the stored record.  The `!` assertion on
`mergeTokenData` (both arguments non-null, hence a non-null result) is
modelled by `Option.getD`. -/
def insertMerged (acc : List (String × Token)) (token : Token) : List (String × Token) :=
  let key := asciiLower token.token_address
  match lookupAssoc key acc with
  | none => setAssoc key token acc
  | some existing => setAssoc key ((mergeTokenData (some existing) (some token)).getD token) acc

/-- `AggregatorService.mergeAndDeduplicateTokens` (lines 418-434):
fold all tokens into the keyed map, then return its values in insertion
order (`Array.from(tokenMap.values())`). -/
def mergeAndDeduplicateTokens (tokens : List Token) : List Token :=
  (tokens.foldl insertMerged []).map Prod.snd

/-- `AggregatorService.searchTokens` after `Promise.allSettled` (lines 292-316),
cache layer elided (cache-miss path): a rejected source contributes `[]`,
then the concatenated lists are merged and deduplicated. -/
def searchTokensSettled (dexScreenerTokens jupiterTokens : Except String (List Token)) :
    List Token :=
  let dexTokens := match dexScreenerTokens with
    | Except.ok v => v
    | Except.error _ => []
  let jupTokens := match jupiterTokens with
    | Except.ok v => v
    | Except.error _ => []
  mergeAndDeduplicateTokens (dexTokens ++ jupTokens)

/-- `AggregatorService.applyFilters` (lines 458-472): drop tokens whose
volume is below `minVolume`; additionally, when the requested period is
`1h`, drop tokens whose `price_1hr_change` is `undefined`.  (No analogous
check exists for any other period.) -/
def applyFilters (tokens : List Token) (period : String) (minVolume : ℚ) : List Token :=
  tokens.filter fun token =>
    if token.volume_sol < minVolume then false
    else if period = "1h" ∧ token.price_1hr_change = none then false
    else true

/-- The numeric sort key selected by the `switch (sortBy)` in
`AggregatorService.sortTokens` (lines 479-499); `price_change` reads
`price_24hr_change || 0`, and an unrecognized `sortBy` falls back to
volume. -/
def sortKeyValue (sortBy : String) (t : Token) : ℚ :=
  if sortBy = "volume" then t.volume_sol
  else if sortBy = "price_change" then jsNumOr t.price_24hr_change 0
  else if sortBy = "market_cap" then t.market_cap_sol
  else if sortBy = "liquidity" then t.liquidity_sol
  else t.volume_sol

/-- `AggregatorService.sortTokens` (lines 474-505): a stable sort of a copy
of the list with comparator `aValue - bValue` for ascending order and
`bValue - aValue` otherwise; modelled by `List.mergeSort` (stable) on the
corresponding boolean order. -/
def sortTokens (tokens : List Token) (sortBy order : String) : List Token :=
  tokens.mergeSort fun a b =>
    if order = "asc" then decide (sortKeyValue sortBy a ≤ sortKeyValue sortBy b)
    else decide (sortKeyValue sortBy b ≤ sortKeyValue sortBy a)

/-- The filtered-and-sorted list computed by `getFilteredTokens` before
pagination (lines 391-395). -/
def filteredSorted (tokens : List Token) (sortBy order period : String) (minVolume : ℚ) :
    List Token :=
  sortTokens (applyFilters tokens period minVolume) sortBy order

/-- JavaScript `Array.prototype.slice(start, stop)` for non-negative
indices. -/
def jsSlice {α : Type} (l : List α) (start stop : Nat) : List α :=
  (l.take stop).drop start

/-- The query object accepted by `getFilteredTokens`, after defaulting
(`limit = 30`, `sortBy = volume`, `order = desc`, `period = 24h`,
`minVolume = 0`).  The cursor, when present, is the decimal string produced
by a previous call; `parseInt` of it is modelled by `Option Nat`. -/
structure TokenQuery where
  limit : Nat
  cursor : Option Nat
  sortBy : String
  order : String
  period : String
  minVolume : ℚ

/-- The `pagination` object of a `PaginatedResponse` (`src/types/index.ts`). -/
structure Pagination where
  nextCursor : Option String
  total : Nat
  limit : Nat
deriving DecidableEq, Repr

/-- `PaginatedResponse<Token>` (`src/types/index.ts`). -/
structure PaginatedResponse where
  data : List Token
  pagination : Pagination
deriving DecidableEq, Repr

/-- `AggregatorService.getFilteredTokens` (lines 360-416) from the point
where the base token set `tokens` has been resolved (search result or the
cached popular fetch): filter, sort, then slice `[startIndex, endIndex)`
with `startIndex = cursor ?? 0`, `endIndex = startIndex + limit`, and
`nextCursor = endIndex < filtered.length ? String(endIndex) : undefined`. -/
def getFilteredTokens (tokens : List Token) (q : TokenQuery) : PaginatedResponse :=
  let filteredTokens := filteredSorted tokens q.sortBy q.order q.period q.minVolume
  let startIndex := q.cursor.getD 0
  let endIndex := startIndex + q.limit
  let paginatedTokens := jsSlice filteredTokens startIndex endIndex
  { data := paginatedTokens
    pagination :=
      { nextCursor := if endIndex < filteredTokens.length then some (toString endIndex) else none
        total := filteredTokens.length
        limit := q.limit } }

/-- `PriceUpdateEvent` (`src/types/index.ts`). -/
structure PriceUpdateEvent where
  token_address : String
  old_price : ℚ
  new_price : ℚ
  change_percent : ℚ
deriving DecidableEq, Repr

/-- `VolumeSpike` (`src/types/index.ts`). -/
structure VolumeSpike where
  token_address : String
  old_volume : ℚ
  new_volume : ℚ
  spike_percent : ℚ
deriving DecidableEq, Repr

/-- The mutable state threaded through the per-token loop of
`WebSocketService.fetchAndBroadcastUpdates` (lines 139-207):
`previousTokenData` plus the `updates`, `priceUpdates`, `volumeSpikes`
accumulators; `newTokens` records the per-token `new_token` emissions. -/
structure CycleState where
  previousTokenData : List (String × Token)
  updates : List Token
  priceUpdates : List PriceUpdateEvent
  volumeSpikes : List VolumeSpike
  newTokens : List Token
deriving DecidableEq, Repr

/-- One iteration of the `for (const currentToken of currentTokens)` loop in
`WebSocketService.fetchAndBroadcastUpdates` (lines 145-207).  Tokens with an
empty (falsy) address are skipped; an unseen address is recorded and
classified as a new token; otherwise price and volume are compared against
the prior snapshot with the absolute thresholds `0.000000001` and
`0.000001`, and the snapshot is overwritten with a copy of the current
token.  The `!updates.includes(currentToken)` reference check is equivalent
to "the current token was not pushed by the price branch of this same
iteration", since each list element is a freshly constructed object. -/
def stepToken (st : CycleState) (currentToken : Token) : CycleState :=
  if currentToken.token_address = "" then st
  else
    match lookupAssoc currentToken.token_address st.previousTokenData with
    | none =>
      { st with
        updates := st.updates ++ [currentToken]
        newTokens := st.newTokens ++ [currentToken]
        previousTokenData :=
          setAssoc currentToken.token_address currentToken st.previousTokenData }
    | some previous =>
      let priceDiff := |currentToken.price_sol - previous.price_sol|
      let hasMinimalPriceChange := priceDiff > 1 / 1000000000
      let priceChange :=
        (currentToken.price_sol - previous.price_sol) / previous.price_sol * 100
      let st1 :=
        if hasMinimalPriceChange then
          { st with
            priceUpdates := st.priceUpdates ++
              [{ token_address := currentToken.token_address
                 old_price := previous.price_sol
                 new_price := currentToken.price_sol
                 change_percent := priceChange }]
            updates := st.updates ++ [currentToken] }
        else st
      let volumeDiff := |currentToken.volume_sol - previous.volume_sol|
      let hasMinimalVolumeChange := volumeDiff > 1 / 1000000
      let volumeChange :=
        (currentToken.volume_sol - previous.volume_sol) / previous.volume_sol * 100
      let st2 :=
        if hasMinimalVolumeChange then
          let stSpike :=
            if volumeChange > 20 then
              { st1 with
                volumeSpikes := st1.volumeSpikes ++
                  [{ token_address := currentToken.token_address
                     old_volume := previous.volume_sol
                     new_volume := currentToken.volume_sol
                     spike_percent := volumeChange }] }
            else st1
          if hasMinimalPriceChange then stSpike
          else { stSpike with updates := stSpike.updates ++ [currentToken] }
        else st1
      { st2 with
        previousTokenData :=
          setAssoc currentToken.token_address currentToken st2.previousTokenData }

/-- One broadcast cycle over the fetched token list, starting from the
prior snapshot map (the loop of `fetchAndBroadcastUpdates`). -/
def fetchCycle (previousTokenData : List (String × Token)) (currentTokens : List Token) :
    CycleState :=
  currentTokens.foldl stepToken
    { previousTokenData := previousTokenData
      updates := []
      priceUpdates := []
      volumeSpikes := []
      newTokens := [] }

/-- `RateLimitInfo` (`src/types/index.ts`); timestamps in milliseconds. -/
structure RateLimitInfo where
  requests : Nat
  windowStart : Nat
  blocked : Bool
deriving DecidableEq, Repr

/-- The constructor parameters of `RateLimiter` (`src/utils/rateLimiter.ts`). -/
structure RateLimiter where
  maxRequests : Nat
  windowMs : Nat
deriving DecidableEq, Repr

/-- `RateLimiter.canMakeRequest` (rate limiter source, lines 18-51), with the
`requestCounts` map and `Date.now()` made explicit.  The in-place mutations
`info.blocked = true` and `info.requests++` become map updates.  The window
test `now - info.windowStart >= this.windowMs` uses truncated `Nat`
subtraction, which agrees with JavaScript whenever `windowMs > 0` (a
negative difference is then below the window size on both sides). -/
def canMakeRequest (rl : RateLimiter) (requestCounts : List (String × RateLimitInfo))
    (now : Nat) (identifier : String) : Bool × List (String × RateLimitInfo) :=
  match lookupAssoc identifier requestCounts with
  | none =>
    (true, setAssoc identifier { requests := 1, windowStart := now, blocked := false }
      requestCounts)
  | some info =>
    if now - info.windowStart ≥ rl.windowMs then
      (true, setAssoc identifier { requests := 1, windowStart := now, blocked := false }
        requestCounts)
    else if info.requests ≥ rl.maxRequests then
      (false, setAssoc identifier { info with blocked := true } requestCounts)
    else
      (true, setAssoc identifier { info with requests := info.requests + 1 } requestCounts)

/-- `RateLimiter.getRemainingRequests` (lines 53-65).  The method only reads
the map, so the embedding returns the map unchanged alongside the value;
`Math.max(0, maxRequests - info.requests)` is computed over `ℤ`. -/
def getRemainingRequests (rl : RateLimiter) (requestCounts : List (String × RateLimitInfo))
    (now : Nat) (identifier : String) : Int × List (String × RateLimitInfo) :=
  match lookupAssoc identifier requestCounts with
  | none => ((rl.maxRequests : Int), requestCounts)
  | some info =>
    if now - info.windowStart ≥ rl.windowMs then ((rl.maxRequests : Int), requestCounts)
    else (max 0 ((rl.maxRequests : Int) - (info.requests : Int)), requestCounts)

/-- `RateLimiter.getResetTime` (lines 67-74); also read-only. -/
def getResetTime (rl : RateLimiter) (requestCounts : List (String × RateLimitInfo))
    (now : Nat) (identifier : String) : Nat × List (String × RateLimitInfo) :=
  match lookupAssoc identifier requestCounts with
  | none => (now, requestCounts)
  | some info => (info.windowStart + rl.windowMs, requestCounts)

/-- A sequence of `canMakeRequest` calls for one identifier at the given
timestamps, threading the map and collecting the returned booleans. -/
def runCalls (rl : RateLimiter) (requestCounts : List (String × RateLimitInfo))
    (identifier : String) : List Nat → List Bool × List (String × RateLimitInfo)
  | [] => ([], requestCounts)
  | now :: rest =>
    let r := canMakeRequest rl requestCounts now identifier
    let rs := runCalls rl r.2 identifier rest
    (r.1 :: rs.1, rs.2)

/-- JavaScript `parseInt(s, 10)`: skip leading whitespace, read an optional
sign and then a maximal run of decimal digits; `none` models `NaN` (no
digits found). -/
def jsParseInt10 (s : String) : Option Int :=
  let cs := s.toList.dropWhile (fun c => c.isWhitespace)
  let sign : Int := match cs with
    | '-' :: _ => -1
    | _ => 1
  let cs2 := match cs with
    | '-' :: rest => rest
    | '+' :: rest => rest
    | _ => cs
  let digits := cs2.takeWhile (fun c => c.isDigit)
  if digits.isEmpty then none
  else some (sign * (digits.foldl (fun a c => a * 10 + (c.toNat - '0'.toNat)) 0 : Nat))

/-- JavaScript `x < c` where `x` may be `NaN`: any comparison against `NaN`
is false. -/
def jsLtNaN (x : Option Int) (c : Int) : Bool :=
  match x with
  | none => false
  | some v => decide (v < c)

/-- JavaScript `x > c` where `x` may be `NaN`. -/
def jsGtNaN (x : Option Int) (c : Int) : Bool :=
  match x with
  | none => false
  | some v => decide (c < v)

/-- The outcome of `TokenController.getTokens` validation: either a thrown
`AppError (statusCode, code, message)`, or the call into
`aggregatorService.getFilteredTokens` with the parsed limit (`none` models
`NaN`). -/
inductive ControllerOutcome where
  | appError (statusCode : Nat) (code : String) (message : String)
  | callAggregator (limit : Option Int) (sortBy : String) (order : String) (period : String)
deriving DecidableEq, Repr

/-- Whether the outcome is a structured error. -/
def ControllerOutcome.isErr : ControllerOutcome → Bool
  | ControllerOutcome.appError _ _ _ => true
  | ControllerOutcome.callAggregator _ _ _ _ => false

/-- The validation sequence of `TokenController.getTokens`
(`src/controllers/token.controller.ts`, lines 20-48): parse `limit`, reject
when `parsedLimit < 1 || parsedLimit > 100` (both comparisons are false for
`NaN`), then check `sortBy`, `order` and `period` membership; on success
call the aggregator with the parsed parameters. -/
def getTokensValidate (limit sortBy order period : String) : ControllerOutcome :=
  let parsedLimit := jsParseInt10 limit
  if jsLtNaN parsedLimit 1 || jsGtNaN parsedLimit 100 then
    ControllerOutcome.appError 400 "INVALID_LIMIT" "Limit must be between 1 and 100"
  else if !(["volume", "price_change", "market_cap", "liquidity"].contains sortBy) then
    ControllerOutcome.appError 400 "INVALID_SORT_BY" "Invalid sortBy parameter"
  else if !(["asc", "desc"].contains order) then
    ControllerOutcome.appError 400 "INVALID_ORDER" "Order must be asc or desc"
  else if !(["1h", "24h", "7d"].contains period) then
    ControllerOutcome.appError 400 "INVALID_PERIOD" "Period must be 1h, 24h, or 7d"
  else
    ControllerOutcome.callAggregator parsedLimit sortBy order period

/-- The fields of a `DexScreenerPair` (`src/api/dexscreener.api.ts`) that
`transformPairToToken` reads.  The numeric strings `priceNative` and
`priceUsd` are modelled by their parsed values (`none` for an absent
`priceUsd`); upstream strings are assumed parseable, so `parseFloat`
producing `NaN` on a present string is outside the model. -/
structure DexScreenerPair where
  dexId : String
  pairAddress : String
  baseTokenAddress : String
  baseTokenName : String
  baseTokenSymbol : String
  priceNative : Option ℚ
  priceUsd : Option ℚ
  txnsH24Buys : ℚ
  txnsH24Sells : ℚ
  volumeH24 : ℚ
  priceChangeH1 : ℚ
  priceChangeH24 : ℚ
  liquidityBase : Option ℚ
  fdv : Option ℚ
  marketCap : Option ℚ
deriving DecidableEq, Repr

/-- `DexScreenerAPI.transformPairToToken` (dexscreener source, lines
178-201): one `Token` per pair, keyed by the pair's base token address;
`parseFloat(pair.priceUsd || '0') || 1` is the volume denominator, and the
`pair.marketCap ? ... : 0` ternary tests truthiness. -/
def transformPairToToken (now : ℚ) (pair : DexScreenerPair) : Token :=
  let priceInSol := jsNumOr pair.priceNative 0
  let usdDenom := jsNumOr pair.priceUsd 1
  let volumeInSol := pair.volumeH24 / usdDenom
  let liquidityInSol := jsNumOr pair.liquidityBase 0
  { token_address := pair.baseTokenAddress
    token_name := pair.baseTokenName
    token_ticker := pair.baseTokenSymbol
    price_sol := priceInSol
    market_cap_sol :=
      match pair.marketCap with
      | none => 0
      | some mc => if mc = 0 then 0 else mc / usdDenom
    volume_sol := volumeInSol
    liquidity_sol := liquidityInSol
    transaction_count := pair.txnsH24Buys + pair.txnsH24Sells
    price_1hr_change := some pair.priceChangeH1
    price_24hr_change := some pair.priceChangeH24
    price_7d_change := none
    protocol := pair.dexId
    dex_id := some pair.dexId
    pair_address := some pair.pairAddress
    price_usd := some (pair.priceUsd.getD 0)
    fdv := pair.fdv
    last_updated := some now }

/-- `DexScreenerAPI.transformPairsToTokens` (lines 174-176). -/
def transformPairsToTokens (now : ℚ) (pairs : List DexScreenerPair) : List Token :=
  pairs.map (transformPairToToken now)

/-- The base token set resolved by `getFilteredTokens` when no search string
is given and the aggregate cache misses (aggregator service, lines
378-388): the untouched result of `dexScreenerAPI.searchTokens('SOL')`,
i.e. one token per returned pair with no merge or deduplication (this list
is also what gets cached under the `popular` key). -/
def popularBaseTokens (now : ℚ) (pairs : List DexScreenerPair) : List Token :=
  transformPairsToTokens now pairs

/-- The fields of a merged token that `mergeTokenData` does not aggregate
(everything except `volume_sol`, `liquidity_sol`, `transaction_count` and
`last_updated`): `m` takes all of them from `t`. -/
def nonAggregatedFieldsFrom (m t : Token) : Prop :=
  m.token_address = t.token_address ∧
  m.token_name = t.token_name ∧
  m.token_ticker = t.token_ticker ∧
  m.price_sol = t.price_sol ∧
  m.market_cap_sol = t.market_cap_sol ∧
  m.price_1hr_change = t.price_1hr_change ∧
  m.price_24hr_change = t.price_24hr_change ∧
  m.price_7d_change = t.price_7d_change ∧
  m.protocol = t.protocol ∧
  m.dex_id = t.dex_id ∧
  m.pair_address = t.pair_address ∧
  m.price_usd = t.price_usd ∧
  m.fdv = t.fdv

/-- A sample token record used to build concrete test inputs. -/
def sampleToken (addr name : String) (price vol : ℚ) : Token :=
  { token_address := addr
    token_name := name
    token_ticker := "TKR"
    price_sol := price
    market_cap_sol := 0
    volume_sol := vol
    liquidity_sol := 0
    transaction_count := 0
    price_1hr_change := none
    price_24hr_change := none
    price_7d_change := none
    protocol := "raydium"
    dex_id := none
    pair_address := none
    price_usd := none
    fdv := none
    last_updated := none }

/-- First merge input: zero price, distinct display name. -/
def zeroPriceTokenA : Token := sampleToken "mint1" "AAA" 0 1

/-- Second merge input: zero price, same address, other display name. -/
def zeroPriceTokenB : Token := sampleToken "mint1" "BBB" 0 2

/-- A token with a nonzero volume, used to exercise self-merge. -/
def volumeTokenC : Token := sampleToken "mint2" "CCC" 1 100

/-- A token whose `price_24hr_change` is absent but whose volume passes any
zero `minVolume` filter. -/
def missingChangeToken : Token := sampleToken "mint3" "DDD" 1 5

/-- Prior snapshot for the change-classification scenario:
price `1.0`, volume `100`. -/
def priorSnapshotToken : Token := sampleToken "mintX" "XXX" 1 100

/-- Current reading for the change-classification scenario:
price `1.0`, volume `125`. -/
def currentReadingToken : Token := sampleToken "mintX" "XXX" 1 125

/-- A DexScreener pair whose base token is the wrapped-SOL mint. -/
def solPairUsdc : DexScreenerPair :=
  { dexId := "raydium"
    pairAddress := "pairUsdc"
    baseTokenAddress := "So11111111111111111111111111111111111111112"
    baseTokenName := "Wrapped SOL"
    baseTokenSymbol := "SOL"
    priceNative := some 1
    priceUsd := some 150
    txnsH24Buys := 10
    txnsH24Sells := 12
    volumeH24 := 300
    priceChangeH1 := 1
    priceChangeH24 := 2
    liquidityBase := some 50
    fdv := none
    marketCap := some 1500 }

/-- A second DexScreener pair with the same base token on another quote. -/
def solPairUsdt : DexScreenerPair :=
  { dexId := "orca"
    pairAddress := "pairUsdt"
    baseTokenAddress := "So11111111111111111111111111111111111111112"
    baseTokenName := "Wrapped SOL"
    baseTokenSymbol := "SOL"
    priceNative := some 1
    priceUsd := some 150
    txnsH24Buys := 4
    txnsH24Sells := 6
    volumeH24 := 150
    priceChangeH1 := 1
    priceChangeH24 := 2
    liquidityBase := some 20
    fdv := none
    marketCap := some 1500 }

theorem lookupAssoc_setAssoc_self {β : Type} (key : String) (v : β) (l : List (String × β)) :
    lookupAssoc key (setAssoc key v l) = some v := by
  induction l with
  | nil => simp [setAssoc, lookupAssoc]
  | cons p rest ih =>
    obtain ⟨k, e⟩ := p
    by_cases h : k = key
    · simp [setAssoc, h, lookupAssoc]
    · simp [setAssoc, h, lookupAssoc, ih]

theorem setAssoc_ne_nil {β : Type} (key : String) (v : β) (l : List (String × β)) :
    setAssoc key v l ≠ [] := by
  cases l with
  | nil => simp [setAssoc]
  | cons p rest =>
    obtain ⟨k, e⟩ := p
    by_cases h : k = key <;> simp [setAssoc, h]

/-- C1: the pairwise merge of two non-null tokens sharing an address sums
`volume_sol` and takes pairwise maxima of `liquidity_sol`,
`transaction_count` and `last_updated`; every other field comes from `t1`
when `t1.price_sol` is positive and from `t2` otherwise — in particular,
when neither price is positive the second argument wins, not the first
(amended from the claim's first-argument tie-break). -/
theorem mergeTokenData_aggregates_and_prefers_positive_price (t1 t2 : Token)
    (_h : t1.token_address = t2.token_address) :
    ∃ m, mergeTokenData (some t1) (some t2) = some m ∧
      m.volume_sol = t1.volume_sol + t2.volume_sol ∧
      m.liquidity_sol = max t1.liquidity_sol t2.liquidity_sol ∧
      m.transaction_count = max t1.transaction_count t2.transaction_count ∧
      m.last_updated = some (max (t1.last_updated.getD 0) (t2.last_updated.getD 0)) ∧
      (t1.price_sol > 0 → nonAggregatedFieldsFrom m t1) ∧
      (¬ t1.price_sol > 0 → nonAggregatedFieldsFrom m t2) := by
  by_cases hp : t1.price_sol > 0
  · refine ⟨_, rfl, ?_, ?_, ?_, ?_, ?_, ?_⟩ <;>
      simp [mergeTokenData, hp, nonAggregatedFieldsFrom]
  · refine ⟨_, rfl, ?_, ?_, ?_, ?_, ?_, ?_⟩ <;>
      simp [mergeTokenData, hp, nonAggregatedFieldsFrom, add_comm, max_comm]

theorem mergeTokenData_policy_witness :
    zeroPriceTokenA.token_address = zeroPriceTokenB.token_address ∧
      (∃ m, mergeTokenData (some zeroPriceTokenA) (some zeroPriceTokenB) = some m ∧
        m.volume_sol = zeroPriceTokenA.volume_sol + zeroPriceTokenB.volume_sol ∧
        m.liquidity_sol = max zeroPriceTokenA.liquidity_sol zeroPriceTokenB.liquidity_sol ∧
        m.transaction_count =
          max zeroPriceTokenA.transaction_count zeroPriceTokenB.transaction_count ∧
        m.last_updated = some (max (zeroPriceTokenA.last_updated.getD 0)
          (zeroPriceTokenB.last_updated.getD 0)) ∧
        (zeroPriceTokenA.price_sol > 0 → nonAggregatedFieldsFrom m zeroPriceTokenA) ∧
        (¬ zeroPriceTokenA.price_sol > 0 → nonAggregatedFieldsFrom m zeroPriceTokenB)) :=
  ⟨by decide,
    mergeTokenData_aggregates_and_prefers_positive_price zeroPriceTokenA zeroPriceTokenB
      (by decide)⟩

/-- C1 counterexample: both inputs share an address and neither has a
positive price, yet the merged record's `token_name` comes from the second
argument, contradicting the claimed first-argument tie-break. -/
theorem mergeTokenData_tie_goes_to_second :
    zeroPriceTokenA.token_address = zeroPriceTokenB.token_address ∧
      ¬ zeroPriceTokenA.price_sol > 0 ∧ ¬ zeroPriceTokenB.price_sol > 0 ∧
      (mergeTokenData (some zeroPriceTokenA) (some zeroPriceTokenB)).map Token.token_name ≠
        some zeroPriceTokenA.token_name := by decide

/-- C2 (amended): when the same address occurs twice in the input list, the
merge-and-deduplicate step merges the token with itself, which doubles
`volume_sol` (and normalizes a missing `last_updated` to `0`); no
deduplication happens before the volumes are summed. -/
theorem mergeAndDeduplicate_self_doubles_volume (t : Token) :
    mergeAndDeduplicateTokens [t, t] =
      [{ t with volume_sol := t.volume_sol + t.volume_sol
                last_updated := some (t.last_updated.getD 0) }] := by
  obtain ⟨a, n, tk, p, mc, v, lq, tc, c1, c24, c7, pr, dx, pa, pu, fd, lu⟩ := t
  simp [mergeAndDeduplicateTokens, insertMerged, lookupAssoc, setAssoc, mergeTokenData,
    List.foldl]

/-- C2 counterexample: merging a token with volume `100` with itself yields
volume `200`, so the self-merge is not the identity. -/
theorem mergeAndDeduplicate_self_not_idempotent :
    mergeAndDeduplicateTokens [volumeTokenC, volumeTokenC] ≠ [volumeTokenC] ∧
      (mergeAndDeduplicateTokens [volumeTokenC, volumeTokenC]).map Token.volume_sol = [200] ∧
      volumeTokenC.volume_sol = 100 := by
  have hmap : (mergeAndDeduplicateTokens [volumeTokenC, volumeTokenC]).map Token.volume_sol
      = [200] := by
    norm_num [mergeAndDeduplicateTokens, insertMerged, lookupAssoc, setAssoc, mergeTokenData,
      volumeTokenC, sampleToken]
  refine ⟨?_, hmap, by norm_num [volumeTokenC, sampleToken]⟩
  intro hcontra
  rw [hcontra] at hmap
  have : volumeTokenC.volume_sol = 200 := by simpa using hmap
  rw [show volumeTokenC.volume_sol = 100 from by norm_num [volumeTokenC, sampleToken]] at this
  norm_num at this

/-- C6 (amended): `applyFilters` keeps a token iff it is in the input, its
volume is not below `minVolume`, and — only when the requested period is
`1h` — its `price_1hr_change` is present; periods `24h` and `7d` impose no
change-field requirement. -/
theorem applyFilters_membership (tokens : List Token) (period : String) (minVolume : ℚ)
    (t : Token) :
    t ∈ applyFilters tokens period minVolume ↔
      t ∈ tokens ∧ ¬ t.volume_sol < minVolume ∧
        (period = "1h" → t.price_1hr_change ≠ none) := by
  by_cases h1 : t.volume_sol < minVolume <;>
    by_cases h2 : period = "1h" <;>
      by_cases h3 : t.price_1hr_change = none <;>
        simp [applyFilters, List.mem_filter, h1, h2, h3]

/-- C6 counterexample: with period `24h`, a token lacking
`price_24hr_change` (and above the volume floor) is kept, although the
claim requires it to be dropped. -/
theorem applyFilters_keeps_missing_24h_change :
    applyFilters [missingChangeToken] "24h" 0 = [missingChangeToken] ∧
      missingChangeToken.price_24hr_change = none ∧
      ¬ missingChangeToken.volume_sol < 0 := by decide

/-- C9 (amended): the controller returns a structured error exactly when
the limit parses to an integer outside `[1, 100]` or one of `sortBy`,
`order`, `period` is outside its allowed set; otherwise it calls the
aggregator with the parsed parameters.  A limit that does not parse to any
number (`parseInt` gives `NaN`) passes both range comparisons and is
forwarded to the aggregator, contrary to the claim. -/
theorem getTokensValidate_characterization (limit sortBy order period : String) :
    ((getTokensValidate limit sortBy order period).isErr = true ↔
      ((∃ v, jsParseInt10 limit = some v ∧ (v < 1 ∨ 100 < v)) ∨
        sortBy ∉ (["volume", "price_change", "market_cap", "liquidity"] : List String) ∨
        order ∉ (["asc", "desc"] : List String) ∨
        period ∉ (["1h", "24h", "7d"] : List String))) ∧
    ((getTokensValidate limit sortBy order period).isErr = false →
      getTokensValidate limit sortBy order period =
        ControllerOutcome.callAggregator (jsParseInt10 limit) sortBy order period) := by
  unfold getTokensValidate
  cases hv : jsParseInt10 limit with
  | none =>
    simp only [jsLtNaN, jsGtNaN, Bool.or_self, Bool.false_or, if_false]
    split_ifs with hs ho hp <;>
      simp_all [ControllerOutcome.isErr]
  | some v =>
    simp only [jsLtNaN, jsGtNaN]
    split_ifs with hr hs ho hp <;>
      simp_all [ControllerOutcome.isErr, Decidable.imp_iff_not_or]

theorem getTokensValidate_characterization_witness :
    (((getTokensValidate "30" "volume" "desc" "24h").isErr = true ↔
      ((∃ v, jsParseInt10 "30" = some v ∧ (v < 1 ∨ 100 < v)) ∨
        "volume" ∉ (["volume", "price_change", "market_cap", "liquidity"] : List String) ∨
        "desc" ∉ (["asc", "desc"] : List String) ∨
        "24h" ∉ (["1h", "24h", "7d"] : List String))) ∧
    ((getTokensValidate "30" "volume" "desc" "24h").isErr = false →
      getTokensValidate "30" "volume" "desc" "24h" =
        ControllerOutcome.callAggregator (jsParseInt10 "30") "volume" "desc" "24h")) :=
  getTokensValidate_characterization "30" "volume" "desc" "24h"

/-- C9 counterexample: a non-numeric limit (`parseInt` = `NaN`) slips
through validation: the controller calls the aggregator instead of
returning the structured `INVALID_LIMIT` error the claim requires. -/
theorem getTokensValidate_nan_limit_passes :
    jsParseInt10 "abc" = none ∧
      getTokensValidate "abc" "volume" "desc" "24h" =
        ControllerOutcome.callAggregator none "volume" "desc" "24h" := by decide

theorem insertMerged_ne_nil (acc : List (String × Token)) (t : Token) :
    insertMerged acc t ≠ [] := by
  unfold insertMerged
  cases h : lookupAssoc (asciiLower t.token_address) acc <;>
    simp only [h] <;> exact setAssoc_ne_nil _ _ _

theorem foldl_insertMerged_ne_nil (l : List Token) :
    ∀ acc : List (String × Token), acc ≠ [] → l.foldl insertMerged acc ≠ [] := by
  induction l with
  | nil => intro acc h; simpa [List.foldl] using h
  | cons t ts ih =>
    intro acc _
    simpa [List.foldl] using ih (insertMerged acc t) (insertMerged_ne_nil acc t)

theorem mergeAndDeduplicateTokens_ne_nil (t : Token) (ts : List Token) :
    mergeAndDeduplicateTokens (t :: ts) ≠ [] := by
  unfold mergeAndDeduplicateTokens
  intro h
  rw [List.map_eq_nil_iff] at h
  exact foldl_insertMerged_ne_nil ts (insertMerged [] t) (insertMerged_ne_nil [] t)
    (by simpa [List.foldl] using h)

/-- C8: when one source rejects and the other fulfills, `searchTokens`
returns the merged-and-deduplicated result built from the successful
source's tokens; in particular it is not empty whenever the successful
source returned any tokens (and, being a total function of the settled
results, it throws nothing). -/
theorem searchTokens_sourceFailure_tolerance (e : String) (ts : List Token) :
    searchTokensSettled (Except.error e) (Except.ok ts) = mergeAndDeduplicateTokens ts
    ∧ searchTokensSettled (Except.ok ts) (Except.error e) = mergeAndDeduplicateTokens ts
    ∧ (ts ≠ [] →
        searchTokensSettled (Except.error e) (Except.ok ts) ≠ [] ∧
        searchTokensSettled (Except.ok ts) (Except.error e) ≠ []) := by
  refine ⟨by simp [searchTokensSettled], by simp [searchTokensSettled], ?_⟩
  intro hne
  obtain ⟨t, ts', rfl⟩ := List.exists_cons_of_ne_nil hne
  exact ⟨by simpa [searchTokensSettled] using mergeAndDeduplicateTokens_ne_nil t ts',
    by simpa [searchTokensSettled] using mergeAndDeduplicateTokens_ne_nil t ts'⟩

theorem searchTokens_sourceFailure_tolerance_witness :
    ([volumeTokenC] : List Token) ≠ [] ∧
      searchTokensSettled (Except.error "network down") (Except.ok [volumeTokenC]) ≠ [] ∧
      searchTokensSettled (Except.ok [volumeTokenC]) (Except.error "network down") ≠ [] :=
  ⟨by simp, (searchTokens_sourceFailure_tolerance "network down" [volumeTokenC]).2.2 (by simp)⟩

/-- C5: `getFilteredTokens` returns exactly the slice
`[cursor, cursor + limit)` of the filtered-and-sorted list, with
`nextCursor` the string of `cursor + limit` when elements remain and absent
otherwise; consequently `limit = 5` followed by `limit = 5, cursor = "5"`
yields order-consistent slices that concatenate to the first 10 ranked
tokens, and are disjoint whenever the ranked list has no duplicates. -/
theorem getFilteredTokens_pagination (tokens : List Token) (limit cursor : Nat)
    (sortBy order period : String) (minVolume : ℚ) :
    (getFilteredTokens tokens ⟨limit, some cursor, sortBy, order, period, minVolume⟩).data
      = ((filteredSorted tokens sortBy order period minVolume).drop cursor).take limit
    ∧ (getFilteredTokens tokens
          ⟨limit, some cursor, sortBy, order, period, minVolume⟩).pagination.nextCursor
      = (if cursor + limit < (filteredSorted tokens sortBy order period minVolume).length
          then some (toString (cursor + limit)) else none)
    ∧ (getFilteredTokens tokens ⟨5, none, sortBy, order, period, minVolume⟩).data ++
        (getFilteredTokens tokens ⟨5, some 5, sortBy, order, period, minVolume⟩).data
      = (filteredSorted tokens sortBy order period minVolume).take 10
    ∧ ((filteredSorted tokens sortBy order period minVolume).Nodup →
        List.Disjoint
          (getFilteredTokens tokens ⟨5, none, sortBy, order, period, minVolume⟩).data
          (getFilteredTokens tokens ⟨5, some 5, sortBy, order, period, minVolume⟩).data) := by
  have hslice : ∀ c l : Nat,
      (getFilteredTokens tokens ⟨l, some c, sortBy, order, period, minVolume⟩).data
        = ((filteredSorted tokens sortBy order period minVolume).drop c).take l := by
    intro c l
    simp [getFilteredTokens, jsSlice, List.drop_take, Nat.add_sub_cancel_left]
  have hpages :
      (getFilteredTokens tokens ⟨5, none, sortBy, order, period, minVolume⟩).data ++
        (getFilteredTokens tokens ⟨5, some 5, sortBy, order, period, minVolume⟩).data
      = (filteredSorted tokens sortBy order period minVolume).take 10 := by
    rw [hslice 5 5]
    have h0 : (getFilteredTokens tokens ⟨5, none, sortBy, order, period, minVolume⟩).data
        = (filteredSorted tokens sortBy order period minVolume).take 5 := by
      simp [getFilteredTokens, jsSlice]
    rw [h0, show (10 : Nat) = 5 + 5 from rfl, List.take_add]
  refine ⟨hslice cursor limit, by simp [getFilteredTokens], hpages, ?_⟩
  intro hnodup
  have h10 : ((filteredSorted tokens sortBy order period minVolume).take 10).Nodup :=
    hnodup.sublist (List.take_sublist _ _)
  rw [← hpages] at h10
  exact (List.nodup_append.mp h10).2.2

theorem getFilteredTokens_pagination_witness :
    (getFilteredTokens [] ⟨5, some 0, "volume", "desc", "24h", 0⟩).data
      = ((filteredSorted [] "volume" "desc" "24h" 0).drop 0).take 5
    ∧ (getFilteredTokens [] ⟨5, some 0, "volume", "desc", "24h", 0⟩).pagination.nextCursor
      = (if 0 + 5 < (filteredSorted [] "volume" "desc" "24h" 0).length
          then some (toString (0 + 5)) else none)
    ∧ (getFilteredTokens [] ⟨5, none, "volume", "desc", "24h", 0⟩).data ++
        (getFilteredTokens [] ⟨5, some 5, "volume", "desc", "24h", 0⟩).data
      = (filteredSorted [] "volume" "desc" "24h" 0).take 10
    ∧ ((filteredSorted [] "volume" "desc" "24h" 0).Nodup →
        List.Disjoint (getFilteredTokens [] ⟨5, none, "volume", "desc", "24h", 0⟩).data
          (getFilteredTokens [] ⟨5, some 5, "volume", "desc", "24h", 0⟩).data) :=
  getFilteredTokens_pagination [] 5 0 "volume" "desc" "24h" 0

theorem lookupAssoc_eq_none_iff {β : Type} (key : String) (l : List (String × β)) :
    lookupAssoc key l = none ↔ key ∉ l.map Prod.fst := by
  induction l with
  | nil => simp [lookupAssoc]
  | cons p rest ih =>
    obtain ⟨k, v⟩ := p
    simp only [List.map_cons, List.mem_cons, lookupAssoc]
    by_cases h : k = key
    · subst h; simp
    · have hkk : ¬ key = k := fun hc => h hc.symm
      simp [h, ih, hkk, not_or]

theorem lookupAssoc_mem {β : Type} {key : String} {l : List (String × β)} {v : β}
    (h : lookupAssoc key l = some v) : (key, v) ∈ l := by
  induction l with
  | nil => simp [lookupAssoc] at h
  | cons p rest ih =>
    obtain ⟨k, e⟩ := p
    by_cases hk : k = key
    · subst hk
      simp [lookupAssoc] at h
      simp [h]
    · simp [lookupAssoc, hk] at h
      exact List.mem_cons_of_mem _ (ih h)

theorem setAssoc_keys {β : Type} (key : String) (v : β) (l : List (String × β)) :
    (setAssoc key v l).map Prod.fst =
      if key ∈ l.map Prod.fst then l.map Prod.fst else l.map Prod.fst ++ [key] := by
  induction l with
  | nil => simp [setAssoc]
  | cons p rest ih =>
    obtain ⟨k, e⟩ := p
    by_cases h : k = key
    · subst h; simp [setAssoc]
    · have hkk : ¬ key = k := fun hc => h hc.symm
      simp only [setAssoc, if_neg h, List.map_cons, ih, List.mem_cons]
      by_cases hm : key ∈ rest.map Prod.fst
      · simp [hm, hkk]
      · simp [hm, hkk]

theorem mem_setAssoc {β : Type} {key : String} {v : β} {l : List (String × β)}
    {p : String × β} (hp : p ∈ setAssoc key v l) : p ∈ l ∨ p = (key, v) := by
  induction l with
  | nil => simpa [setAssoc] using hp
  | cons q rest ih =>
    obtain ⟨k, e⟩ := q
    by_cases h : k = key
    · simp [setAssoc, h] at hp
      rcases hp with hp | hp
      · exact Or.inr (by simp [hp])
      · exact Or.inl (List.mem_cons_of_mem _ hp)
    · simp [setAssoc, h] at hp
      rcases hp with hp | hp
      · exact Or.inl (by simp [hp])
      · rcases ih hp with h2 | h2
        · exact Or.inl (List.mem_cons_of_mem _ h2)
        · exact Or.inr h2

theorem mergeTokenData_getD_address (a b c : Token) :
    ((mergeTokenData (some a) (some b)).getD c).token_address = a.token_address ∨
    ((mergeTokenData (some a) (some b)).getD c).token_address = b.token_address := by
  by_cases hp : a.price_sol > 0 <;> simp [mergeTokenData, hp]

theorem insertMerged_keys (acc : List (String × Token)) (t : Token) :
    (insertMerged acc t).map Prod.fst =
      if asciiLower t.token_address ∈ acc.map Prod.fst then acc.map Prod.fst
      else acc.map Prod.fst ++ [asciiLower t.token_address] := by
  unfold insertMerged
  cases h : lookupAssoc (asciiLower t.token_address) acc with
  | none =>
    have hnot := (lookupAssoc_eq_none_iff _ _).mp h
    simp only [h, setAssoc_keys, if_neg hnot]
  | some existing =>
    have hmem : asciiLower t.token_address ∈ acc.map Prod.fst := by
      by_contra hc
      rw [← lookupAssoc_eq_none_iff] at hc
      rw [hc] at h
      exact Option.noConfusion h
    simp only [h, setAssoc_keys, if_pos hmem]

theorem insertMerged_keys_nodup (acc : List (String × Token)) (t : Token)
    (h : (acc.map Prod.fst).Nodup) : ((insertMerged acc t).map Prod.fst).Nodup := by
  rw [insertMerged_keys]
  split_ifs with hmem
  · exact h
  · rw [List.nodup_append]
    refine ⟨h, by simp, ?_⟩
    intro a ha hb
    simp at hb
    subst hb
    exact hmem ha

theorem insertMerged_good (acc : List (String × Token)) (t : Token)
    (h : ∀ p ∈ acc, asciiLower (p.2).token_address = p.1) :
    ∀ p ∈ insertMerged acc t, asciiLower (p.2).token_address = p.1 := by
  intro p hp
  simp only [insertMerged] at hp
  cases hl : lookupAssoc (asciiLower t.token_address) acc with
  | none =>
    simp only [hl] at hp
    rcases mem_setAssoc hp with h2 | h2
    · exact h p h2
    · subst h2; rfl
  | some existing =>
    simp only [hl] at hp
    rcases mem_setAssoc hp with h2 | h2
    · exact h p h2
    · subst h2
      rcases mergeTokenData_getD_address existing t t with ha | ha
      · show asciiLower ((mergeTokenData (some existing) (some t)).getD t).token_address = _
        rw [ha]
        exact h (asciiLower t.token_address, existing) (lookupAssoc_mem hl)
      · show asciiLower ((mergeTokenData (some existing) (some t)).getD t).token_address = _
        rw [ha]

theorem foldl_insertMerged_invariant (tokens : List Token) :
    ∀ acc : List (String × Token),
      (∀ p ∈ acc, asciiLower (p.2).token_address = p.1) → (acc.map Prod.fst).Nodup →
      (∀ p ∈ tokens.foldl insertMerged acc, asciiLower (p.2).token_address = p.1) ∧
        ((tokens.foldl insertMerged acc).map Prod.fst).Nodup := by
  induction tokens with
  | nil => intro acc hg hn; exact ⟨hg, hn⟩
  | cons t ts ih =>
    intro acc hg hn
    simpa [List.foldl] using
      ih (insertMerged acc t) (insertMerged_good acc t hg) (insertMerged_keys_nodup acc t hn)

theorem mergeAndDeduplicateTokens_addresses_nodup (tokens : List Token) :
    ((mergeAndDeduplicateTokens tokens).map fun t => asciiLower t.token_address).Nodup := by
  obtain ⟨hgood, hnodup⟩ :=
    foldl_insertMerged_invariant tokens [] (by simp) (by simp)
  have heq : ((mergeAndDeduplicateTokens tokens).map fun t => asciiLower t.token_address)
      = (tokens.foldl insertMerged []).map Prod.fst := by
    unfold mergeAndDeduplicateTokens
    rw [List.map_map]
    exact List.map_congr_left fun p hp => hgood p hp
  rw [heq]
  exact hnodup

/-- C3 (amended): the list `searchTokens` returns — for every combination
of fulfilled or rejected sources — contains at most one token per
lowercased address; the popular default fetch used by `getFilteredTokens`
when no search string is given is returned as-is from DexScreener and does
not enjoy this invariant (see the counterexample). -/
theorem searchTokens_snapshot_addresses_nodup
    (dexScreenerTokens jupiterTokens : Except String (List Token)) :
    ((searchTokensSettled dexScreenerTokens jupiterTokens).map
      fun t => asciiLower t.token_address).Nodup := by
  unfold searchTokensSettled
  exact mergeAndDeduplicateTokens_addresses_nodup _

/-- C3 counterexample: two DexScreener pairs sharing a base token produce
two entries with the same lowercased address in the popular base token set
that `getFilteredTokens` resolves when no search string is given, so that
snapshot violates the claimed at-most-one-per-address invariant. -/
theorem popularFetch_duplicate_addresses :
    ¬ ((popularBaseTokens 0 [solPairUsdc, solPairUsdt]).map
        fun t => asciiLower t.token_address).Nodup := by decide

/-- C4: in a broadcast-cycle step for a fetched token with a prior
snapshot (positive prior price and volume, so the JavaScript percent
arithmetic is finite): a `price_update` entry is produced iff
`|new - old| > 1e-9`; any volume change with `|new - old| > 1e-6` puts the
token into the `tokens_updated` batch; a `volume_spike` entry is produced
only when the percent change exceeds `20` (and is produced when the
threshold and the percent bound both hold); and the concrete scenario
(prior price `1.0` volume `100`, reading price `1.0` volume `125`) yields
exactly one spike with `spike_percent = 25` and no price update. -/
theorem stepToken_change_classification (st : CycleState) (currentToken previous : Token)
    (haddr : currentToken.token_address ≠ "")
    (hprev : lookupAssoc currentToken.token_address st.previousTokenData = some previous)
    (_hprice : 0 < previous.price_sol) (_hvol : 0 < previous.volume_sol) :
    (|currentToken.price_sol - previous.price_sol| > 1 / 1000000000 →
      (stepToken st currentToken).priceUpdates = st.priceUpdates ++
        [{ token_address := currentToken.token_address
           old_price := previous.price_sol
           new_price := currentToken.price_sol
           change_percent :=
             (currentToken.price_sol - previous.price_sol) / previous.price_sol * 100 }])
    ∧ (¬ |currentToken.price_sol - previous.price_sol| > 1 / 1000000000 →
        (stepToken st currentToken).priceUpdates = st.priceUpdates)
    ∧ (|currentToken.volume_sol - previous.volume_sol| > 1 / 1000000 →
        currentToken ∈ (stepToken st currentToken).updates)
    ∧ ((stepToken st currentToken).volumeSpikes ≠ st.volumeSpikes →
        (currentToken.volume_sol - previous.volume_sol) / previous.volume_sol * 100 > 20)
    ∧ (|currentToken.volume_sol - previous.volume_sol| > 1 / 1000000 ∧
        (currentToken.volume_sol - previous.volume_sol) / previous.volume_sol * 100 > 20 →
        (stepToken st currentToken).volumeSpikes = st.volumeSpikes ++
          [{ token_address := currentToken.token_address
             old_volume := previous.volume_sol
             new_volume := currentToken.volume_sol
             spike_percent :=
               (currentToken.volume_sol - previous.volume_sol) / previous.volume_sol * 100 }])
    ∧ (fetchCycle [(priorSnapshotToken.token_address, priorSnapshotToken)]
        [currentReadingToken]).volumeSpikes =
        [{ token_address := "mintX", old_volume := 100, new_volume := 125,
           spike_percent := 25 }]
    ∧ (fetchCycle [(priorSnapshotToken.token_address, priorSnapshotToken)]
        [currentReadingToken]).priceUpdates = [] := by
  have hscn1 : (fetchCycle [(priorSnapshotToken.token_address, priorSnapshotToken)]
      [currentReadingToken]).volumeSpikes =
      [{ token_address := "mintX", old_volume := 100, new_volume := 125,
         spike_percent := 25 }] := by
    have hs : ¬ ("mintX" : String) = "" := by decide
    norm_num [hs, fetchCycle, stepToken, lookupAssoc, priorSnapshotToken, currentReadingToken,
      sampleToken]
  have hscn2 : (fetchCycle [(priorSnapshotToken.token_address, priorSnapshotToken)]
      [currentReadingToken]).priceUpdates = [] := by
    have hs : ¬ ("mintX" : String) = "" := by decide
    norm_num [hs, fetchCycle, stepToken, lookupAssoc, priorSnapshotToken, currentReadingToken,
      sampleToken]
  refine ⟨?_, ?_, ?_, ?_, ?_, hscn1, hscn2⟩
  · intro hP
    rw [gt_iff_lt, one_div] at hP
    by_cases hV : (1000000 : ℚ)⁻¹ < |currentToken.volume_sol - previous.volume_sol| <;>
      by_cases hS :
          (20 : ℚ) < (currentToken.volume_sol - previous.volume_sol) /
            previous.volume_sol * 100 <;>
        simp [stepToken, haddr, hprev, hP, hV, hS]
  · intro hP
    rw [gt_iff_lt, one_div] at hP
    by_cases hV : (1000000 : ℚ)⁻¹ < |currentToken.volume_sol - previous.volume_sol| <;>
      by_cases hS :
          (20 : ℚ) < (currentToken.volume_sol - previous.volume_sol) /
            previous.volume_sol * 100 <;>
        simp [stepToken, haddr, hprev, hP, hV, hS]
  · intro hV
    rw [gt_iff_lt, one_div] at hV
    by_cases hP : (1000000000 : ℚ)⁻¹ < |currentToken.price_sol - previous.price_sol| <;>
      by_cases hS :
          (20 : ℚ) < (currentToken.volume_sol - previous.volume_sol) /
            previous.volume_sol * 100 <;>
        simp [stepToken, haddr, hprev, hP, hV, hS]
  · by_cases hS :
        (currentToken.volume_sol - previous.volume_sol) / previous.volume_sol * 100 > 20
    · exact fun _ => hS
    · intro hneq
      exfalso
      apply hneq
      rw [gt_iff_lt] at hS
      by_cases hP : (1000000000 : ℚ)⁻¹ < |currentToken.price_sol - previous.price_sol| <;>
        by_cases hV : (1000000 : ℚ)⁻¹ < |currentToken.volume_sol - previous.volume_sol| <;>
          simp [stepToken, haddr, hprev, hP, hV, hS]
  · rintro ⟨hV, hS⟩
    rw [gt_iff_lt, one_div] at hV
    rw [gt_iff_lt] at hS
    by_cases hP : (1000000000 : ℚ)⁻¹ < |currentToken.price_sol - previous.price_sol| <;>
      simp [stepToken, haddr, hprev, hP, hV, hS]

theorem stepToken_change_classification_witness :
    (|currentReadingToken.price_sol - priorSnapshotToken.price_sol| > 1 / 1000000000 →
      (stepToken ⟨[("mintX", priorSnapshotToken)], [], [], [], []⟩
          currentReadingToken).priceUpdates = [] ++
        [{ token_address := currentReadingToken.token_address
           old_price := priorSnapshotToken.price_sol
           new_price := currentReadingToken.price_sol
           change_percent := (currentReadingToken.price_sol - priorSnapshotToken.price_sol) /
             priorSnapshotToken.price_sol * 100 }])
    ∧ (¬ |currentReadingToken.price_sol - priorSnapshotToken.price_sol| > 1 / 1000000000 →
        (stepToken ⟨[("mintX", priorSnapshotToken)], [], [], [], []⟩
          currentReadingToken).priceUpdates = [])
    ∧ (|currentReadingToken.volume_sol - priorSnapshotToken.volume_sol| > 1 / 1000000 →
        currentReadingToken ∈ (stepToken ⟨[("mintX", priorSnapshotToken)], [], [], [], []⟩
          currentReadingToken).updates)
    ∧ ((stepToken ⟨[("mintX", priorSnapshotToken)], [], [], [], []⟩
          currentReadingToken).volumeSpikes ≠ [] →
        (currentReadingToken.volume_sol - priorSnapshotToken.volume_sol) /
          priorSnapshotToken.volume_sol * 100 > 20)
    ∧ (|currentReadingToken.volume_sol - priorSnapshotToken.volume_sol| > 1 / 1000000 ∧
        (currentReadingToken.volume_sol - priorSnapshotToken.volume_sol) /
          priorSnapshotToken.volume_sol * 100 > 20 →
        (stepToken ⟨[("mintX", priorSnapshotToken)], [], [], [], []⟩
          currentReadingToken).volumeSpikes = [] ++
          [{ token_address := currentReadingToken.token_address
             old_volume := priorSnapshotToken.volume_sol
             new_volume := currentReadingToken.volume_sol
             spike_percent := (currentReadingToken.volume_sol - priorSnapshotToken.volume_sol) /
               priorSnapshotToken.volume_sol * 100 }])
    ∧ (fetchCycle [(priorSnapshotToken.token_address, priorSnapshotToken)]
        [currentReadingToken]).volumeSpikes =
        [{ token_address := "mintX", old_volume := 100, new_volume := 125,
           spike_percent := 25 }]
    ∧ (fetchCycle [(priorSnapshotToken.token_address, priorSnapshotToken)]
        [currentReadingToken]).priceUpdates = [] :=
  stepToken_change_classification ⟨[("mintX", priorSnapshotToken)], [], [], [], []⟩
    currentReadingToken priorSnapshotToken (by decide) (by decide) (by decide) (by decide)

theorem canMakeRequest_fresh (rl : RateLimiter) (st : List (String × RateLimitInfo))
    (now : Nat) (identifier : String) (h : lookupAssoc identifier st = none) :
    canMakeRequest rl st now identifier =
      (true, setAssoc identifier ⟨1, now, false⟩ st) := by
  simp [canMakeRequest, h]

theorem canMakeRequest_under_limit (rl : RateLimiter) (st : List (String × RateLimitInfo))
    (now : Nat) (identifier : String) (k w : Nat) (b : Bool)
    (h : lookupAssoc identifier st = some ⟨k, w, b⟩)
    (hw : now - w < rl.windowMs) (hk : k < rl.maxRequests) :
    canMakeRequest rl st now identifier =
      (true, setAssoc identifier ⟨k + 1, w, b⟩ st) := by
  simp [canMakeRequest, h, Nat.not_le.mpr hw, Nat.not_le.mpr hk]

theorem canMakeRequest_blocked (rl : RateLimiter) (st : List (String × RateLimitInfo))
    (now : Nat) (identifier : String) (k w : Nat) (b : Bool)
    (h : lookupAssoc identifier st = some ⟨k, w, b⟩)
    (hw : now - w < rl.windowMs) (hk : rl.maxRequests ≤ k) :
    canMakeRequest rl st now identifier =
      (false, setAssoc identifier ⟨k, w, true⟩ st) := by
  simp [canMakeRequest, h, Nat.not_le.mpr hw, hk]

theorem canMakeRequest_expired (rl : RateLimiter) (st : List (String × RateLimitInfo))
    (now : Nat) (identifier : String) (k w : Nat) (b : Bool)
    (h : lookupAssoc identifier st = some ⟨k, w, b⟩)
    (hw : rl.windowMs ≤ now - w) :
    canMakeRequest rl st now identifier =
      (true, setAssoc identifier ⟨1, now, false⟩ st) := by
  simp [canMakeRequest, h, hw]

theorem runCalls_inWindow (rl : RateLimiter) (identifier : String) (t0 : Nat)
    (hwin : 0 < rl.windowMs) (times : List Nat) :
    ∀ (st : List (String × RateLimitInfo)) (k : Nat) (b : Bool),
      lookupAssoc identifier st = some ⟨k, t0, b⟩ →
      k ≤ rl.maxRequests →
      (∀ t ∈ times, t < t0 + rl.windowMs) →
      (runCalls rl st identifier times).1 =
        List.replicate (min times.length (rl.maxRequests - k)) true ++
          List.replicate (times.length - (rl.maxRequests - k)) false
      ∧ lookupAssoc identifier (runCalls rl st identifier times).2 =
          some ⟨min rl.maxRequests (k + times.length), t0,
            b || decide (rl.maxRequests < k + times.length)⟩ := by
  induction times with
  | nil =>
    intro st k b hst hk _
    have hnl : ¬ rl.maxRequests < k := Nat.not_lt.mpr hk
    refine ⟨by simp [runCalls], ?_⟩
    simp [runCalls, hst, Nat.min_eq_right hk, hnl]
  | cons now rest ih =>
    intro st k b hst hk htimes
    have hnow : now < t0 + rl.windowMs := htimes now (by simp)
    have hrest : ∀ t ∈ rest, t < t0 + rl.windowMs := fun t ht => htimes t (by simp [ht])
    have hw : now - t0 < rl.windowMs := by omega
    by_cases hkm : k < rl.maxRequests
    · have hcall := canMakeRequest_under_limit rl st now identifier k t0 b hst hw hkm
      have hlook : lookupAssoc identifier (setAssoc identifier ⟨k + 1, t0, b⟩ st) =
          some ⟨k + 1, t0, b⟩ := lookupAssoc_setAssoc_self _ _ _
      obtain ⟨ih1, ih2⟩ :=
        ih (setAssoc identifier ⟨k + 1, t0, b⟩ st) (k + 1) b hlook (by omega) hrest
      constructor
      · have e1 : rl.maxRequests - k = (rl.maxRequests - (k + 1)) + 1 := by omega
        simp only [runCalls, hcall, ih1, List.length_cons, e1, Nat.succ_min_succ,
          Nat.succ_sub_succ, List.replicate_succ, List.cons_append]
      · have e2 : k + 1 + rest.length = k + (rest.length + 1) := by omega
        simp only [runCalls, hcall, ih2, List.length_cons, e2]
    · have hcall := canMakeRequest_blocked rl st now identifier k t0 b hst hw
        (Nat.not_lt.mp hkm)
      have hlook : lookupAssoc identifier (setAssoc identifier ⟨k, t0, true⟩ st) =
          some ⟨k, t0, true⟩ := lookupAssoc_setAssoc_self _ _ _
      obtain ⟨ih1, ih2⟩ :=
        ih (setAssoc identifier ⟨k, t0, true⟩ st) k true hlook hk hrest
      constructor
      · have e0 : rl.maxRequests - k = 0 := by omega
        simp only [runCalls, hcall, ih1, List.length_cons, e0]
        simp [List.replicate_succ]
      · have hlt : rl.maxRequests < k + (rest.length + 1) := by omega
        have hmin : min rl.maxRequests (k + rest.length) =
            min rl.maxRequests (k + (rest.length + 1)) := by omega
        simp only [runCalls, hcall, ih2, List.length_cons, hmin]
        simp [hlt]

/-- C7: starting from no state for an identifier, the first `maxRequests`
admission checks within one window all return `true`, the
`(maxRequests + 1)`-th within the same window returns `false`, and a call
at or after `windowStart + windowMs` returns `true` again, leaving a fresh
window with request count `1`. -/
theorem rateLimiter_fixed_window (maxRequests windowMs : Nat) (identifier : String)
    (t0 : Nat) (rest : List Nat) (tlate : Nat)
    (hmax : 0 < maxRequests) (hwin : 0 < windowMs)
    (hlen : rest.length = maxRequests)
    (hrest : ∀ t ∈ rest, t < t0 + windowMs)
    (hlate : t0 + windowMs ≤ tlate) :
    (runCalls ⟨maxRequests, windowMs⟩ [] identifier (t0 :: rest)).1 =
      List.replicate maxRequests true ++ [false]
    ∧ (canMakeRequest ⟨maxRequests, windowMs⟩
        (runCalls ⟨maxRequests, windowMs⟩ [] identifier (t0 :: rest)).2 tlate identifier).1 =
        true
    ∧ lookupAssoc identifier
        (canMakeRequest ⟨maxRequests, windowMs⟩
          (runCalls ⟨maxRequests, windowMs⟩ [] identifier (t0 :: rest)).2 tlate
          identifier).2 =
        some ⟨1, tlate, false⟩ := by
  have hcall1 := canMakeRequest_fresh ⟨maxRequests, windowMs⟩ [] t0 identifier rfl
  have hlook1 : lookupAssoc identifier
      (setAssoc identifier (⟨1, t0, false⟩ : RateLimitInfo) []) =
      some ⟨1, t0, false⟩ := lookupAssoc_setAssoc_self _ _ _
  obtain ⟨h1, h2⟩ := runCalls_inWindow ⟨maxRequests, windowMs⟩ identifier t0 hwin rest
    (setAssoc identifier (⟨1, t0, false⟩ : RateLimitInfo) []) 1 false hlook1 hmax hrest
  have hres : (runCalls ⟨maxRequests, windowMs⟩ [] identifier (t0 :: rest)).1 =
      true :: (runCalls ⟨maxRequests, windowMs⟩
        (setAssoc identifier (⟨1, t0, false⟩ : RateLimitInfo) []) identifier rest).1 := by
    simp [runCalls, hcall1]
  have hstate : (runCalls ⟨maxRequests, windowMs⟩ [] identifier (t0 :: rest)).2 =
      (runCalls ⟨maxRequests, windowMs⟩
        (setAssoc identifier (⟨1, t0, false⟩ : RateLimitInfo) []) identifier rest).2 := by
    simp [runCalls, hcall1]
  have hfirst : (runCalls ⟨maxRequests, windowMs⟩ [] identifier (t0 :: rest)).1 =
      List.replicate maxRequests true ++ [false] := by
    rw [hres, h1, hlen]
    have e1 : maxRequests - 1 + 1 = maxRequests := by omega
    have e2 : min maxRequests (maxRequests - 1) = maxRequests - 1 := by omega
    have e3 : maxRequests - (maxRequests - 1) = 1 := by omega
    rw [e2, e3]
    rw [show List.replicate maxRequests true = List.replicate (maxRequests - 1 + 1) true from
      by rw [e1]]
    simp [List.replicate_succ]
  have hlookfinal : lookupAssoc identifier
      (runCalls ⟨maxRequests, windowMs⟩ [] identifier (t0 :: rest)).2 =
      some ⟨maxRequests, t0, true⟩ := by
    rw [hstate, h2, hlen]
    have e4 : min maxRequests (1 + maxRequests) = maxRequests := by omega
    have e5 : maxRequests < 1 + maxRequests := by omega
    simp [e4, e5]
  have hcall2 := canMakeRequest_expired ⟨maxRequests, windowMs⟩
    (runCalls ⟨maxRequests, windowMs⟩ [] identifier (t0 :: rest)).2 tlate identifier
    maxRequests t0 true hlookfinal (by show windowMs ≤ tlate - t0; omega)
  refine ⟨hfirst, ?_, ?_⟩
  · rw [hcall2]
  · rw [hcall2]
    exact lookupAssoc_setAssoc_self _ _ _

theorem rateLimiter_fixed_window_witness :
    (runCalls ⟨5, 1000⟩ [] "dexscreener" (0 :: [100, 200, 300, 400, 500])).1 =
      List.replicate 5 true ++ [false]
    ∧ (canMakeRequest ⟨5, 1000⟩
        (runCalls ⟨5, 1000⟩ [] "dexscreener" (0 :: [100, 200, 300, 400, 500])).2 1000
        "dexscreener").1 = true
    ∧ lookupAssoc "dexscreener"
        (canMakeRequest ⟨5, 1000⟩
          (runCalls ⟨5, 1000⟩ [] "dexscreener" (0 :: [100, 200, 300, 400, 500])).2 1000
          "dexscreener").2 = some ⟨1, 1000, false⟩ :=
  rateLimiter_fixed_window 5 1000 "dexscreener" 0 [100, 200, 300, 400, 500] 1000
    (by decide) (by decide) (by decide) (by decide) (by decide)

/-- C10: `getRemainingRequests` and `getResetTime` only read the
per-identifier window state: they return the map unchanged, so a
`canMakeRequest` that follows them decides exactly as it would have without
them; moreover `getRemainingRequests` never returns a negative number and
returns `maxRequests` for an identifier with no entry (and for one whose
window has expired). -/
theorem rateLimiter_observers_pure (rl : RateLimiter)
    (st : List (String × RateLimitInfo)) (now : Nat) (identifier : String) :
    (getRemainingRequests rl st now identifier).2 = st
    ∧ (getResetTime rl st now identifier).2 = st
    ∧ 0 ≤ (getRemainingRequests rl st now identifier).1
    ∧ (lookupAssoc identifier st = none →
        (getRemainingRequests rl st now identifier).1 = rl.maxRequests ∧
        (getResetTime rl st now identifier).1 = now)
    ∧ (∀ info, lookupAssoc identifier st = some info →
        rl.windowMs ≤ now - info.windowStart →
        (getRemainingRequests rl st now identifier).1 = rl.maxRequests)
    ∧ (∀ (now2 : Nat) (id2 : String),
        canMakeRequest rl (getRemainingRequests rl st now identifier).2 now2 id2 =
          canMakeRequest rl st now2 id2)
    ∧ (∀ (now2 : Nat) (id2 : String),
        canMakeRequest rl (getResetTime rl st now identifier).2 now2 id2 =
          canMakeRequest rl st now2 id2) := by
  have hframe1 : (getRemainingRequests rl st now identifier).2 = st := by
    unfold getRemainingRequests
    cases h : lookupAssoc identifier st with
    | none => rfl
    | some info => by_cases hw : now - info.windowStart ≥ rl.windowMs <;> simp [hw]
  have hframe2 : (getResetTime rl st now identifier).2 = st := by
    unfold getResetTime
    cases h : lookupAssoc identifier st with
    | none => rfl
    | some info => rfl
  refine ⟨hframe1, hframe2, ?_, ?_, ?_, ?_, ?_⟩
  · unfold getRemainingRequests
    cases h : lookupAssoc identifier st with
    | none => simp
    | some info =>
      by_cases hw : now - info.windowStart ≥ rl.windowMs <;> simp [hw]
  · intro h
    simp [getRemainingRequests, getResetTime, h]
  · intro info h hw
    simp [getRemainingRequests, h, hw]
  · intro now2 id2
    rw [hframe1]
  · intro now2 id2
    rw [hframe2]

theorem rateLimiter_observers_pure_witness :
    (getRemainingRequests ⟨5, 1000⟩ [] 0 "jupiter").2 = []
    ∧ (getResetTime ⟨5, 1000⟩ [] 0 "jupiter").2 = []
    ∧ 0 ≤ (getRemainingRequests ⟨5, 1000⟩ [] 0 "jupiter").1
    ∧ (lookupAssoc "jupiter" ([] : List (String × RateLimitInfo)) = none →
        (getRemainingRequests ⟨5, 1000⟩ [] 0 "jupiter").1 = (5 : Nat) ∧
        (getResetTime ⟨5, 1000⟩ [] 0 "jupiter").1 = 0)
    ∧ (∀ info, lookupAssoc "jupiter" ([] : List (String × RateLimitInfo)) = some info →
        (1000 : Nat) ≤ 0 - info.windowStart →
        (getRemainingRequests ⟨5, 1000⟩ [] 0 "jupiter").1 = (5 : Nat))
    ∧ (∀ (now2 : Nat) (id2 : String),
        canMakeRequest ⟨5, 1000⟩ (getRemainingRequests ⟨5, 1000⟩ [] 0 "jupiter").2 now2 id2 =
          canMakeRequest ⟨5, 1000⟩ [] now2 id2)
    ∧ (∀ (now2 : Nat) (id2 : String),
        canMakeRequest ⟨5, 1000⟩ (getResetTime ⟨5, 1000⟩ [] 0 "jupiter").2 now2 id2 =
          canMakeRequest ⟨5, 1000⟩ [] now2 id2) :=
  rateLimiter_observers_pure ⟨5, 1000⟩ [] 0 "jupiter"

end DexFlow
